import Mathlib

/-!
Verification development for the legal-document risk/compliance analysis
pipeline (docgen_agent): section segmentation (document_parser.extract_sections),
pattern detection (risk_analyzer.detect_risk_patterns / check_compliance),
fairness scoring (calculate_fairness_score), recommendation synthesis
(generate_recommendations) and the orchestrator precondition
(legal_agent.analyze_risks).

Strings are modelled as lists of characters.  The regular expressions used by
the analyzer all have the shape `lit1.*lit2.*...*litN` (literal alphanumeric
segments joined by greedy gaps), so the matcher below implements exactly this
fragment of the host regex engine: a match at position i anchors the first
literal at i, each `.*` gap spans any characters except a newline, gaps are
tried longest-first (greedy with backtracking), and the scanner emits
non-overlapping matches left to right, resuming at the end of each match.
Case-insensitive matching is modelled by lowercasing both subject and pattern.
-/

set_option autoImplicit false

namespace DocGen

/-- Python `s.lower()`, character-wise. -/
def pyLower (s : List Char) : List Char := s.map Char.toLower

/-- Python `s.strip()`: drop whitespace from both ends. -/
def pyStrip (s : List Char) : List Char :=
  ((s.dropWhile Char.isWhitespace).reverse.dropWhile Char.isWhitespace).reverse

/-- Python `s[a:b]` for `0 ≤ a`, clamped at the right end by `take`. -/
def pySlice (s : List Char) (a b : Nat) : List Char := (s.take b).drop a

/-- Python `s.split("\n")`. -/
def splitOnNl : List Char → List (List Char)
  | [] => [[]]
  | c :: cs =>
    let r := splitOnNl cs
    if c = '\n' then [] :: r
    else
      match r with
      | [] => [[c]]
      | l :: ls => (c :: l) :: ls

/-- Split a pattern on the two-character separator `.*`
(Python `p.split(".*")` for the patterns at hand, whose segments are
alphanumeric and so never overlap the separator). -/
def splitDotStar : List Char → List (List Char)
  | [] => [[]]
  | '.' :: '*' :: rest => [] :: splitDotStar rest
  | c :: rest =>
    match splitDotStar rest with
    | [] => [[c]]
    | l :: ls => (c :: l) :: ls

/-- A regex of the analyzer fragment, as its list of literal segments
(the pieces between the `.*` gaps), lowercased. -/
def toSegs (p : String) : List (List Char) :=
  (splitDotStar p.data).map (fun seg => seg.map Char.toLower)

/-- Try `f (j + d)`, then `f (j + d - 1)`, ..., down to `f j`; first success
wins.  This is the longest-first backtracking order of a greedy `.*` gap. -/
def searchDesc (f : Nat → Option Nat) (j : Nat) : Nat → Option Nat
  | 0 => f j
  | d + 1 =>
    match f (j + d + 1) with
    | some e => some e
    | none => searchDesc f j d

/-- Match the segment list at exactly position `i` of `s`; return the end
position of the overall match (greedy, as the host engine computes it).
A `.*` gap may not cross a newline. -/
def matchSegs : List (List Char) → List Char → Nat → Option Nat
  | [], _, i => some i
  | [w], s, i =>
    if (s.drop i).take w.length = w then some (i + w.length) else none
  | w :: rest, s, i =>
    if (s.drop i).take w.length = w then
      searchDesc (matchSegs rest s) (i + w.length)
        (((s.drop (i + w.length)).takeWhile (fun c => !(c = '\n'))).length)
    else none

/-- Leftmost match whose start is ≥ `pos`; `rem` bounds the number of start
positions still to try. -/
def scanFrom (segs : List (List Char)) (s : List Char) : Nat → Nat → Option (Nat × Nat)
  | pos, rem =>
    match matchSegs segs s pos with
    | some e => some (pos, e)
    | none =>
      match rem with
      | 0 => none
      | r + 1 => scanFrom segs s (pos + 1) r

/-- Scanner loop of `re.finditer`: repeatedly take the leftmost match at or
after `pos`, then resume at its end (bumping by one after an empty match). -/
def finditerAux (segs : List (List Char)) (s : List Char) : Nat → Nat → List (Nat × Nat)
  | 0, _ => []
  | fuel + 1, pos =>
    match scanFrom segs s pos (s.length - pos) with
    | none => []
    | some (st, e) =>
      (st, e) :: finditerAux segs s fuel (if e = st then e + 1 else e)

/-- All matches of the pattern in `s`, as (start, end) pairs,
mirroring `re.finditer`. -/
def finditer (segs : List (List Char)) (s : List Char) : List (Nat × Nat) :=
  finditerAux segs s (s.length + 1) 0


/-- One detected clause, as the analyzer builds it: the rule pattern, the
matched text (taken from the lowercased view), and the surrounding context
(sliced from the original content and stripped). -/
structure Finding where
  pattern : String
  matched : List Char
  context : List Char
deriving DecidableEq, Repr

/-- The findings one pattern list produces on `content`, in pattern order:
matching runs on the lowercased content, `matched` is the matched slice of
that lowercased view, and `context` is the slice of the original content
from `start - pad` to `end + pad` (clamped to the document bounds),
whitespace-stripped. -/
def clausesFor (pats : List String) (content : List Char) (pad : Nat) : List Finding :=
  (pats.map (fun p =>
    (finditer (toSegs p) (pyLower content)).map (fun se =>
      { pattern := p
        matched := pySlice (pyLower content) se.1 se.2
        context := pyStrip (pySlice content (se.1 - pad) (min content.length (se.2 + pad))) }))).flatten

def RISK_PATTERNS : List (String × List String) := [
  ("mandatory_arbitration", ["arbitration.*shall.*determined", "mandatory.*arbitration", "binding.*arbitration", "arbitration.*before.*arbitrator", "JAMS.*arbitration", "arbitration.*rules.*procedures", "judgment.*award.*court", "no.*right.*sue.*court", "waive.*right.*jury.*trial"]),
  ("broad_liability_waivers", ["no.*liability.*damages", "limited.*liability.*maximum", "not.*liable.*any.*damages", "disclaim.*all.*warranties", "as.*is.*as.*available", "with.*all.*faults", "consequential.*damages", "punitive.*damages", "exemplary.*damages", "lost.*profits.*data", "business.*reputation", "intangible.*loss"]),
  ("broad_termination_rights", ["terminate.*account.*without.*notice", "suspend.*account.*sole.*discretion", "delete.*account.*discretion", "violation.*terms.*terminate", "infringement.*rights.*terminate", "applicable.*laws.*terminate", "might.*constitute.*violation", "would.*constitute.*violation"]),
  ("automatic_renewal", ["automatically.*renew", "auto.*renewal", "renew.*end.*period", "unless.*cancel.*before", "recurring.*subscription", "continuous.*billing"]),
  ("excessive_data_collection", ["location.*data", "birth.*date.*photo", "ID.*photo", "personal.*data.*collect", "cookies.*tracking", "user.*information.*collect", "browsing.*history", "device.*information", "biometric.*identifiers", "faceprints.*voiceprints", "keystroke.*patterns", "clipboard.*information", "social.*network.*contacts", "phone.*contacts", "precise.*location", "GPS.*information", "metadata.*upload", "device.*identifiers", "advertising.*identifiers", "IP.*address.*geolocation"]),
  ("no_refunds", ["no.*refunds", "non.*refundable", "all.*sales.*final", "no.*money.*back", "subscription.*non.*refundable"]),
  ("data_selling", ["sell.*personal.*information", "share.*data.*third.*parties", "transfer.*data.*marketing", "disclose.*user.*information", "data.*marketing.*purposes", "advertisers.*share.*information", "business.*partners.*share", "cross.*context.*behavioral.*advertising", "targeted.*advertising", "personalized.*advertising"]),
  ("unilateral_changes", ["change.*terms.*any.*time", "modify.*agreement.*notice", "update.*terms.*discretion", "reserve.*right.*change", "alter.*replace.*modify", "update.*privacy.*policy.*time"]),
  ("sole_discretion_clauses", ["sole.*discretion", "our.*discretion", "company.*discretion", "reasonable.*discretion", "appropriate.*circumstances"]),
  ("waiver_of_rights", ["waive.*all.*rights", "waive.*legal.*rights", "waive.*claims", "irrevocably.*waive", "waive.*any.*claim"]),
  ("extensive_data_sharing", ["share.*with.*service.*providers", "share.*with.*business.*partners", "share.*with.*advertisers", "share.*with.*third.*parties", "corporate.*group.*entities", "affiliated.*entities", "global.*company", "international.*transfer", "cross.*border.*transfer", "servers.*outside.*united.*states"]),
  ("indefinite_data_retention", ["retain.*as.*long.*necessary", "retain.*legitimate.*business.*interest", "retain.*legal.*obligations", "retain.*defense.*legal.*claims", "retain.*improve.*develop", "retain.*safety.*security", "retain.*violation.*terms", "keep.*information.*violation", "retention.*different.*criteria", "keep.*account.*long.*account"]),
  ("broad_data_use", ["use.*advertising.*marketing", "use.*targeted.*advertising", "use.*personalized.*content", "use.*infer.*information", "use.*demographic.*classification", "use.*content.*recommendations", "use.*ad.*recommendations", "use.*machine.*learning", "use.*AI.*training", "use.*algorithm.*improvement", "use.*research.*purposes", "use.*analytics.*measurement"]),
  ("lack_of_user_control", ["no.*opt.*out.*data.*collection", "cannot.*opt.*out.*tracking", "required.*data.*collection", "necessary.*for.*service", "cannot.*disable.*cookies", "cannot.*disable.*tracking", "cannot.*delete.*account", "cannot.*remove.*data", "limited.*data.*deletion", "partial.*data.*removal"])
]

def COMPLIANCE_PATTERNS : List (String × List String) := [
  ("gdpr", ["right.*to.*deletion", "data.*portability", "explicit.*consent", "data.*processing.*basis", "privacy.*policy", "data.*protection", "personal.*data.*rights", "lawful.*basis.*processing", "data.*subject.*rights", "privacy.*by.*design"]),
  ("coppa", ["children.*under.*13", "parental.*consent", "collect.*child.*data", "age.*verification", "minor.*protection", "children.*privacy.*policy", "guardian.*guide", "parent.*controls"]),
  ("ccpa", ["california.*privacy", "opt.*out.*sale", "right.*to.*know", "data.*disclosure", "privacy.*rights.*act", "california.*resident", "personal.*information.*request", "data.*access.*request"]),
  ("fair_terms", ["reasonable.*notice", "due.*process", "appeal.*rights", "dispute.*resolution", "mediation", "fair.*terms", "user.*control", "data.*minimization", "purpose.*limitation", "storage.*limitation"]),
  ("privacy_best_practices", ["data.*minimization", "purpose.*limitation", "storage.*limitation", "accuracy.*data", "confidentiality.*security", "accountability", "transparency", "user.*consent", "opt.*in.*consent", "granular.*consent"])
]

def risk_deductions : List (String × Int) := [
  ("mandatory_arbitration", 25),
  ("broad_liability_waivers", 30),
  ("broad_termination_rights", 20),
  ("automatic_renewal", 15),
  ("excessive_data_collection", 25),
  ("no_refunds", 10),
  ("data_selling", 30),
  ("unilateral_changes", 15),
  ("sole_discretion_clauses", 15),
  ("waiver_of_rights", 20),
  ("extensive_data_sharing", 25),
  ("indefinite_data_retention", 20),
  ("broad_data_use", 20),
  ("lack_of_user_control", 25)
]

def compliance_bonuses : List (String × Int) := [
  ("gdpr", 10),
  ("coppa", 10),
  ("ccpa", 10),
  ("fair_terms", 15),
  ("privacy_best_practices", 15)
]

/-- Common shape of `detect_risk_patterns` and `check_compliance`: for each
category of the table, in table order, collect its findings and keep the
category only when at least one pattern matched. -/
def detectWith (table : List (String × List String)) (content : List Char) (pad : Nat) :
    List (String × List Finding) :=
  (table.map (fun kv => (kv.1, clausesFor kv.2 content pad))).filter (fun kv => !kv.2.isEmpty)

/-- `risk_analyzer.detect_risk_patterns`: context window of 100 characters
on each side. -/
def detect_risk_patterns (content : String) : List (String × List Finding) :=
  detectWith RISK_PATTERNS content.data 100

/-- `risk_analyzer.check_compliance`: context window of 50 characters on
each side. -/
def check_compliance (content : String) : List (String × List Finding) :=
  detectWith COMPLIANCE_PATTERNS content.data 50

/-- `risk_analyzer.calculate_fairness_score`: start from 100, subtract the
table deduction once for every risk key present, add the table bonus once for
every compliance key present, clamp to [0, 100]. -/
def calculate_fairness_score (risks compliance : List (String × List Finding)) : Int :=
  let afterRisks := risks.foldl (fun sc kv =>
    match risk_deductions.lookup kv.1 with
    | some d => sc - d
    | none => sc) 100
  let afterComp := compliance.foldl (fun sc kv =>
    match compliance_bonuses.lookup kv.1 with
    | some b => sc + b
    | none => sc) afterRisks
  max 0 (min 100 afterComp)


/-- The apostrophe character; two advisory strings below contain it. -/
def apos : String := ⟨[Char.ofNat 39]⟩

def advArbitration : String := "⚠️ Remove mandatory arbitration clause - users should have right to sue in court"

def advLiability : String := "⚠️ Limit liability waivers - complete immunity is unfair to users"

def advTermination : String := "⚠️ Add due process for account termination - vague standards are unfair"

def advRenewal : String := "⚠️ Make subscription cancellation easier - automatic renewal can be deceptive"

def advDataCollection : String := "🚨 Limit data collection to what" ++ apos ++ "s necessary - excessive collection violates privacy"

def advNoRefunds : String := "⚠️ Provide clear refund policies - no-refund policies can be unfair"

def advDataSelling : String := "🚨 Prohibit selling user data - this violates user trust and privacy"

def advUnilateral : String := "⚠️ Require notice for material changes - unilateral changes are unfair"

def advSoleDiscretion : String := "⚠️ Add objective standards - " ++ apos ++ "sole discretion" ++ apos ++ " is too vague"

def advWaiverRights : String := "🚨 Remove broad rights waivers - users should retain basic legal rights"

def advDataSharing : String := "🚨 Limit data sharing - extensive sharing with third parties violates privacy"

def advRetention : String := "⚠️ Set clear data retention limits - indefinite retention is unfair"

def advBroadUse : String := "⚠️ Limit data use to stated purposes - broad use violates user expectations"

def advUserControl : String := "🚨 Give users control over their data - lack of control is unfair"

def advGdpr : String := "📋 Add GDPR compliance clauses for EU users"

def advCcpa : String := "📋 Add CCPA compliance for California users"

def advFairTerms : String := "📋 Add fair dispute resolution process"

def advPrivacyBest : String := "📋 Implement privacy by design principles"

def advFallback : String := "✅ Document appears to have fair terms"

/-- Python `k in d` for the modelled mapping. -/
def hasKey (m : List (String × List Finding)) (k : String) : Bool :=
  m.any (fun kv => kv.1 = k)

/-- The advisory list `generate_recommendations` accumulates before the
fallback test: one fixed string per risk category present, in the fixed
source order, then one fixed string per checked compliance framework absent
(gdpr, ccpa, fair_terms, privacy_best_practices). -/
def baseRecommendations (risks compliance : List (String × List Finding)) : List String :=
  (if hasKey risks "mandatory_arbitration" then [advArbitration] else []) ++
  (if hasKey risks "broad_liability_waivers" then [advLiability] else []) ++
  (if hasKey risks "broad_termination_rights" then [advTermination] else []) ++
  (if hasKey risks "automatic_renewal" then [advRenewal] else []) ++
  (if hasKey risks "excessive_data_collection" then [advDataCollection] else []) ++
  (if hasKey risks "no_refunds" then [advNoRefunds] else []) ++
  (if hasKey risks "data_selling" then [advDataSelling] else []) ++
  (if hasKey risks "unilateral_changes" then [advUnilateral] else []) ++
  (if hasKey risks "sole_discretion_clauses" then [advSoleDiscretion] else []) ++
  (if hasKey risks "waiver_of_rights" then [advWaiverRights] else []) ++
  (if hasKey risks "extensive_data_sharing" then [advDataSharing] else []) ++
  (if hasKey risks "indefinite_data_retention" then [advRetention] else []) ++
  (if hasKey risks "broad_data_use" then [advBroadUse] else []) ++
  (if hasKey risks "lack_of_user_control" then [advUserControl] else []) ++
  (if hasKey compliance "gdpr" then [] else [advGdpr]) ++
  (if hasKey compliance "ccpa" then [] else [advCcpa]) ++
  (if hasKey compliance "fair_terms" then [] else [advFairTerms]) ++
  (if hasKey compliance "privacy_best_practices" then [] else [advPrivacyBest])

/-- `risk_analyzer.generate_recommendations`: the accumulated advisories,
or the single affirmative fallback when none applies. -/
def generate_recommendations (risks compliance : List (String × List Finding)) : List String :=
  let recs := baseRecommendations risks compliance
  if recs.isEmpty then [advFallback] else recs

/-- One section of the segmented document. -/
structure ParsedSection where
  title : List Char
  content : List Char
deriving DecidableEq, Repr

/-- Suffix of header rule 1 after the digits and the dot: the host engine
needs some split of the remainder into a whitespace gap followed by one
character that is neither a dot nor a newline. -/
def pat1Tail : List Char → Bool
  | [] => false
  | c :: cs => (!(c = '.') && !(c = '\n')) || (c.isWhitespace && pat1Tail cs)

/-- Header rule 1, a prefix match of a numbered title: one or more digits,
a literal dot, an optional whitespace gap, then a character that is neither
a dot nor a newline. -/
def matchesPat1 (l : List Char) : Bool :=
  let ds := l.takeWhile Char.isDigit
  !ds.isEmpty &&
    (match l.drop ds.length with
     | '.' :: rest => pat1Tail rest
     | _ => false)

/-- Suffix of header rule 2 after the first character: one or more
characters that are uppercase or whitespace, then a literal newline. -/
def pat2Tail : List Char → Bool
  | c :: d :: rest => (c.isUpper || c.isWhitespace) && (d = '\n' || pat2Tail (d :: rest))
  | _ => false

/-- Header rule 2, a prefix match of an all-caps header: an uppercase
letter, one or more uppercase-or-whitespace characters, then a literal
newline (which a line of a newline-split document never contains). -/
def matchesPat2 : List Char → Bool
  | [] => false
  | c :: rest => c.isUpper && pat2Tail rest

/-- Suffix of header rule 3 after the first character: one or more
lowercase-or-whitespace characters, then a colon at the end of the line. -/
def pat3Tail : List Char → Bool
  | [] => false
  | c :: rest =>
    (c.isLower || c.isWhitespace) &&
      (rest = [':'] || rest = [':', '\n'] || pat3Tail rest)

/-- Header rule 3, an anchored match of a title-case header ending in a
colon. -/
def matchesPat3 : List Char → Bool
  | [] => false
  | c :: rest => c.isUpper && pat3Tail rest

/-- A stripped line is a section header when any of the three rules of
`extract_sections` matches it. -/
def isHeader (l : List Char) : Bool := matchesPat1 l || matchesPat2 l || matchesPat3 l

/-- Loop of `document_parser.extract_sections`: `title` and `acc` hold the
section being accumulated; each non-blank non-header line is appended
stripped, followed by a newline; a header flushes the accumulator when its
content is non-blank and opens a section titled by the header line; the
final accumulator is flushed the same way. -/
def extractAux : List (List Char) → List Char → List Char → List ParsedSection
  | [], title, acc => if (pyStrip acc).isEmpty then [] else [⟨title, acc⟩]
  | line :: rest, title, acc =>
    let l := pyStrip line
    if l.isEmpty then extractAux rest title acc
    else if isHeader l then
      (if (pyStrip acc).isEmpty then [] else [⟨title, acc⟩]) ++ extractAux rest l []
    else extractAux rest title (acc ++ l ++ ['\n'])

/-- `document_parser.extract_sections`. -/
def extract_sections (content : String) : List ParsedSection :=
  extractAux (splitOnNl content.data) "Introduction".data []

/-- The parsed document record. -/
structure LegalDocument where
  title : String
  content : String
  document_type : String
  sections : List ParsedSection
deriving DecidableEq, Repr

/-- The fields the risk-analyzer stage computes. -/
structure RiskResults where
  risk_analysis : List (String × List Finding)
  compliance_check : List (String × List Finding)
  fairness_score : Int
  recommendations : List String
deriving DecidableEq, Repr

/-- `risk_analyzer.analyze_legal_risks`: runs detection, compliance
checking, scoring and recommendation generation on the document content,
in sequence, with no failure path. -/
def analyze_legal_risks (doc : LegalDocument) : RiskResults :=
  let risks := detect_risk_patterns doc.content
  let compliance := check_compliance doc.content
  { risk_analysis := risks
    compliance_check := compliance
    fairness_score := calculate_fairness_score risks compliance
    recommendations := generate_recommendations risks compliance }

/-- The orchestrator state threaded through the legal-agent graph
(the fields the risk stage reads or writes). -/
structure LegalAgentState where
  document_content : String
  document_title : String
  document_type : String
  parsed_document : Option LegalDocument
  risk_analysis : List (String × List Finding)
  compliance_check : List (String × List Finding)
  fairness_score : Int
  recommendations : List String

/-- `legal_agent.analyze_risks`: raises `ValueError("Document not parsed.")`
when the state carries no parsed document, and otherwise runs the
risk-analyzer graph on it. -/
def analyze_risks (state : LegalAgentState) : Except String RiskResults :=
  match state.parsed_document with
  | none => Except.error "Document not parsed."
  | some doc => Except.ok (analyze_legal_risks doc)

/-- Sum of the per-category deductions the score applies for a key list:
the table weight for keys in the deduction table, 0 for others. -/
def deductionTotal (keys : List String) : Int :=
  (keys.map (fun k => ((risk_deductions.lookup k).getD 0))).sum

/-- Sum of the per-framework bonuses the score applies for a key list. -/
def bonusTotal (keys : List String) : Int :=
  (keys.map (fun k => ((compliance_bonuses.lookup k).getD 0))).sum

/-- A concrete orchestrator state whose document was never parsed. -/
def unparsedState : LegalAgentState :=
  { document_content := "Sample terms."
    document_title := "Unknown Document"
    document_type := "Terms of Service"
    parsed_document := none
    risk_analysis := []
    compliance_check := []
    fairness_score := 0
    recommendations := [] }

/-- A document of 51 b characters followed by "mediation": the single
compliance match spans positions 51 to 60, far enough from the left edge to
tell a 50-character window from a 100-character one. -/
def medDoc : String := String.mk (List.replicate 51 'b') ++ "mediation"

/-- The finding `check_compliance` produces on `medDoc`. -/
def medFinding : Finding :=
  ⟨"mediation", "mediation".data, (List.replicate 50 'b') ++ "mediation".data⟩

/-- The finding `detect_risk_patterns` produces on the mixed-case document
"Binding Arbitration": the matched text is lowercase while the context
keeps the original casing. -/
def baFinding : Finding :=
  ⟨"binding.*arbitration", "binding arbitration".data, "Binding Arbitration".data⟩

/-- `needle` occurs as a contiguous run inside `hay`. -/
def containsSeq (needle hay : List Char) : Bool :=
  (List.range (hay.length + 1)).any (fun i => (hay.drop i).take needle.length = needle)

/-- The body the Introduction section ends up with on a header-free
document: every non-blank line, stripped, in original order, each followed
by a newline. -/
def strippedBody (lines : List (List Char)) : List Char :=
  (((lines.map pyStrip).filter (fun l => !l.isEmpty)).map (fun l => l ++ ['\n'])).flatten

end DocGen



namespace DocGen



theorem foldl_deduction (l : List (String × List Finding)) :
    ∀ init : Int,
      l.foldl (fun sc kv =>
        match risk_deductions.lookup kv.1 with
        | some d => sc - d
        | none => sc) init = init - deductionTotal (l.map Prod.fst) := by
  induction l with
  | nil => intro init; simp [deductionTotal]
  | cons kv t ih =>
    intro init
    rw [List.foldl_cons, ih]
    have hstep : (match risk_deductions.lookup kv.1 with
        | some d => init - d
        | none => init) = init - ((risk_deductions.lookup kv.1).getD 0) := by
      cases h : risk_deductions.lookup kv.1 <;> simp [h]
    rw [hstep]
    simp [deductionTotal]
    ring

theorem foldl_bonus (l : List (String × List Finding)) :
    ∀ init : Int,
      l.foldl (fun sc kv =>
        match compliance_bonuses.lookup kv.1 with
        | some b => sc + b
        | none => sc) init = init + bonusTotal (l.map Prod.fst) := by
  induction l with
  | nil => intro init; simp [bonusTotal]
  | cons kv t ih =>
    intro init
    rw [List.foldl_cons, ih]
    have hstep : (match compliance_bonuses.lookup kv.1 with
        | some b => init + b
        | none => init) = init + ((compliance_bonuses.lookup kv.1).getD 0) := by
      cases h : compliance_bonuses.lookup kv.1 <;> simp [h]
    rw [hstep]
    simp [bonusTotal]
    ring

/-- The score as a clamped linear expression in the key lists. -/
theorem score_characterization (risks compliance : List (String × List Finding)) :
    calculate_fairness_score risks compliance =
      max 0 (min 100 (100 - deductionTotal (risks.map Prod.fst)
        + bonusTotal (compliance.map Prod.fst))) := by
  simp only [calculate_fairness_score, foldl_deduction, foldl_bonus]

end DocGen

/-- C1: for every pair of input mappings, the fairness score returned by
`calculate_fairness_score` is an integer in [0, 100] inclusive, however many
risk categories or compliance frameworks are present. -/
theorem c1_score_in_unit_range (risks compliance : List (String × List DocGen.Finding)) :
    0 ≤ DocGen.calculate_fairness_score risks compliance ∧
      DocGen.calculate_fairness_score risks compliance ≤ 100 := by
  unfold DocGen.calculate_fairness_score
  refine ⟨le_max_left 0 _, max_le (by norm_num) (min_le_left 100 _)⟩

/-- C2: the fairness score depends only on which keys are present in the two
mappings, not on the finding lists they hold; each present risk category
subtracts its table weight exactly once and each present framework adds its
bonus exactly once, the sum being clamped to [0, 100]. -/
theorem c2_score_depends_only_on_keys
    (risks risks' compliance compliance' : List (String × List DocGen.Finding))
    (hr : risks.map Prod.fst = risks'.map Prod.fst)
    (hc : compliance.map Prod.fst = compliance'.map Prod.fst) :
    DocGen.calculate_fairness_score risks compliance =
      DocGen.calculate_fairness_score risks' compliance' ∧
    DocGen.calculate_fairness_score risks compliance =
      max 0 (min 100 (100 - DocGen.deductionTotal (risks.map Prod.fst)
        + DocGen.bonusTotal (compliance.map Prod.fst))) := by
  refine ⟨?_, DocGen.score_characterization risks compliance⟩
  rw [DocGen.score_characterization, DocGen.score_characterization, hr, hc]

/-- C2 witness: replacing the finding list of a present key by a different
non-empty list leaves the score unchanged, at a concrete input. -/
theorem c2_witness :
    DocGen.calculate_fairness_score [("no_refunds", [])] [("gdpr", [])] =
      DocGen.calculate_fairness_score
        [("no_refunds", [⟨"no.*refunds", "no refunds".data, "no refunds".data⟩])]
        [("gdpr", [⟨"privacy.*policy", "privacy policy".data, "privacy policy".data⟩])] ∧
    DocGen.calculate_fairness_score [("no_refunds", [])] [("gdpr", [])] =
      max 0 (min 100 (100 - DocGen.deductionTotal ["no_refunds"]
        + DocGen.bonusTotal ["gdpr"])) :=
  c2_score_depends_only_on_keys _ _ _ _ (by decide) (by decide)

/-- C3 counterexample: on the empty document the recommendation list is not
the single affirmative appears-fair entry. -/
theorem c3_counterexample :
    DocGen.generate_recommendations (DocGen.detect_risk_patterns "")
        (DocGen.check_compliance "") ≠ [DocGen.advFallback] := by
  decide

/-- C3 (amended): on the empty document the segmenter yields no sections,
both detectors yield empty mappings, the fairness score is 100, and the
recommendations are the four fixed compliance-gap advisories (GDPR, CCPA,
fair dispute resolution, privacy by design) — not the appears-fair fallback;
every stage is a total function, so no failure occurs. -/
theorem c3_empty_document_pipeline :
    DocGen.extract_sections "" = [] ∧
    DocGen.detect_risk_patterns "" = [] ∧
    DocGen.check_compliance "" = [] ∧
    DocGen.calculate_fairness_score (DocGen.detect_risk_patterns "")
      (DocGen.check_compliance "") = 100 ∧
    DocGen.generate_recommendations (DocGen.detect_risk_patterns "")
        (DocGen.check_compliance "") =
      [DocGen.advGdpr, DocGen.advCcpa, DocGen.advFairTerms, DocGen.advPrivacyBest] := by
  decide

/-- C7: the recommendation list is never empty, and when no risk-driven or
compliance-gap advisory applies it is exactly the single affirmative
appears-fair entry. -/
theorem c7_recommendations_nonempty (risks compliance : List (String × List DocGen.Finding)) :
    DocGen.generate_recommendations risks compliance ≠ [] ∧
      (DocGen.baseRecommendations risks compliance = [] →
        DocGen.generate_recommendations risks compliance = [DocGen.advFallback]) := by
  unfold DocGen.generate_recommendations
  by_cases h : (DocGen.baseRecommendations risks compliance).isEmpty
  · rw [if_pos h]
    exact ⟨by simp, fun _ => rfl⟩
  · rw [if_neg h]
    refine ⟨fun hnil => h ?_, fun hnil => absurd (List.isEmpty_eq_true.mpr hnil) h⟩
    rw [hnil]; rfl

/-- C7 witness: with no risks and all four checked frameworks present, no
advisory applies and the output is exactly the appears-fair entry. -/
theorem c7_witness :
    DocGen.generate_recommendations []
        [("gdpr", []), ("ccpa", []), ("fair_terms", []), ("privacy_best_practices", [])] ≠ [] ∧
    DocGen.generate_recommendations []
        [("gdpr", []), ("ccpa", []), ("fair_terms", []), ("privacy_best_practices", [])] =
      [DocGen.advFallback] :=
  ⟨(c7_recommendations_nonempty _ _).1, (c7_recommendations_nonempty _ _).2 (by decide)⟩


/-- C9: invoking the risk-analysis stage on a state whose document has not
been parsed fails immediately with the fixed error, with no retry and no
repair. -/
theorem c9_unparsed_document_is_error (state : DocGen.LegalAgentState)
    (h : state.parsed_document = none) :
    DocGen.analyze_risks state = Except.error "Document not parsed." := by
  unfold DocGen.analyze_risks
  rw [h]

/-- C9 witness: the error at a concrete unparsed state. -/
theorem c9_witness :
    DocGen.analyze_risks DocGen.unparsedState = Except.error "Document not parsed." :=
  c9_unparsed_document_is_error DocGen.unparsedState rfl

namespace DocGen

/-- An entry of `detectWith` is an entry of the table evaluated by
`clausesFor`, and kept only when non-empty. -/
theorem mem_detectWith {table : List (String × List String)} {content : List Char}
    {pad : Nat} {k : String} {fs : List Finding}
    (h : (k, fs) ∈ detectWith table content pad) :
    (∃ pats, (k, pats) ∈ table ∧ fs = clausesFor pats content pad) ∧ fs ≠ [] := by
  unfold detectWith at h
  obtain ⟨hmem, hne⟩ := List.mem_filter.mp h
  obtain ⟨kv, hkv, heq⟩ := List.mem_map.mp hmem
  refine ⟨⟨kv.2, ?_, ?_⟩, ?_⟩
  · have h1 : kv.1 = k := congrArg Prod.fst heq
    rw [← h1]; exact hkv
  · exact (congrArg Prod.snd heq).symm
  · intro hnil
    rw [hnil] at hne
    simp at hne

/-- A finding of `clausesFor` comes from some span the scanner reports for
its own pattern, and its fields are the slices the analyzer takes. -/
theorem mem_clausesFor {pats : List String} {content : List Char} {pad : Nat}
    {f : Finding} (h : f ∈ clausesFor pats content pad) :
    f.pattern ∈ pats ∧
      ∃ st e, (st, e) ∈ finditer (toSegs f.pattern) (pyLower content) ∧
        f.matched = pySlice (pyLower content) st e ∧
        f.context = pyStrip (pySlice content (st - pad) (min content.length (e + pad))) := by
  unfold clausesFor at h
  obtain ⟨l, hl, hfl⟩ := List.mem_flatten.mp h
  obtain ⟨p, hp, hpe⟩ := List.mem_map.mp hl
  rw [← hpe] at hfl
  obtain ⟨se, hse, hf⟩ := List.mem_map.mp hfl
  have hpat : f.pattern = p := by rw [← hf]
  subst hpat
  exact ⟨hp, se.1, se.2, hse, by rw [← hf], by rw [← hf]⟩

end DocGen

/-- C6: every key present in the mapping returned by `detect_risk_patterns`
or by `check_compliance` maps to a non-empty finding list; a category or
framework with no match is absent, never present with an empty list. -/
theorem c6_present_keys_have_findings (content : String) (k : String)
    (fs : List DocGen.Finding) :
    ((k, fs) ∈ DocGen.detect_risk_patterns content → fs ≠ []) ∧
      ((k, fs) ∈ DocGen.check_compliance content → fs ≠ []) :=
  ⟨fun h => (DocGen.mem_detectWith h).2, fun h => (DocGen.mem_detectWith h).2⟩

/-- C6 witness: concrete present keys with their non-empty finding lists. -/
theorem c6_witness :
    ([(⟨"binding.*arbitration", "binding arbitration".data,
        "Binding Arbitration".data⟩ : DocGen.Finding)] ≠ []) ∧
    ([(⟨"mediation", "mediation".data,
        ((List.replicate 50 'b') ++ "mediation".data)⟩ : DocGen.Finding)] ≠ []) :=
  ⟨(c6_present_keys_have_findings "Binding Arbitration" "mandatory_arbitration" _).1
      (by decide),
    (c6_present_keys_have_findings (String.mk (List.replicate 51 'b') ++ "mediation")
        "fair_terms" _).2 (by decide)⟩


/-- C5 (amended): every finding of the risk detector carries as context the
whitespace-stripped window of 100 characters before and after its match
span, clamped to the document bounds; every finding of the compliance
detector carries the corresponding 50-character window, not a
100-character one. -/
theorem c5_context_window_sizes (content : String) (k : String)
    (fs : List DocGen.Finding) (f : DocGen.Finding) :
    ((k, fs) ∈ DocGen.detect_risk_patterns content → f ∈ fs →
      ∃ st e, (st, e) ∈ DocGen.finditer (DocGen.toSegs f.pattern)
          (DocGen.pyLower content.data) ∧
        f.context = DocGen.pyStrip (DocGen.pySlice content.data (st - 100)
          (min content.data.length (e + 100)))) ∧
    ((k, fs) ∈ DocGen.check_compliance content → f ∈ fs →
      ∃ st e, (st, e) ∈ DocGen.finditer (DocGen.toSegs f.pattern)
          (DocGen.pyLower content.data) ∧
        f.context = DocGen.pyStrip (DocGen.pySlice content.data (st - 50)
          (min content.data.length (e + 50)))) := by
  constructor
  · intro hk hf
    obtain ⟨⟨pats, _, hfs⟩, _⟩ := DocGen.mem_detectWith hk
    rw [hfs] at hf
    obtain ⟨_, st, e, hspan, _, hctx⟩ := DocGen.mem_clausesFor hf
    exact ⟨st, e, hspan, hctx⟩
  · intro hk hf
    obtain ⟨⟨pats, _, hfs⟩, _⟩ := DocGen.mem_detectWith hk
    rw [hfs] at hf
    obtain ⟨_, st, e, hspan, _, hctx⟩ := DocGen.mem_clausesFor hf
    exact ⟨st, e, hspan, hctx⟩

/-- C5 counterexample: on `medDoc` the compliance detector's only finding
carries the 50-character window, which differs from the 100-character
window the claim asserts for both detectors. -/
theorem c5_counterexample :
    DocGen.check_compliance DocGen.medDoc = [("fair_terms", [DocGen.medFinding])] ∧
    (51, 60) ∈ DocGen.finditer (DocGen.toSegs DocGen.medFinding.pattern)
      (DocGen.pyLower DocGen.medDoc.data) ∧
    DocGen.medFinding.context ≠ DocGen.pyStrip (DocGen.pySlice DocGen.medDoc.data
      (51 - 100) (min DocGen.medDoc.data.length (60 + 100))) := by
  decide

/-- C5 witness: the window property at the two concrete findings. -/
theorem c5_witness :
    (∃ st e, (st, e) ∈ DocGen.finditer (DocGen.toSegs DocGen.baFinding.pattern)
        (DocGen.pyLower "Binding Arbitration".data) ∧
      DocGen.baFinding.context = DocGen.pyStrip (DocGen.pySlice "Binding Arbitration".data
        (st - 100) (min "Binding Arbitration".data.length (e + 100)))) ∧
    (∃ st e, (st, e) ∈ DocGen.finditer (DocGen.toSegs DocGen.medFinding.pattern)
        (DocGen.pyLower DocGen.medDoc.data) ∧
      DocGen.medFinding.context = DocGen.pyStrip (DocGen.pySlice DocGen.medDoc.data
        (st - 50) (min DocGen.medDoc.data.length (e + 50)))) :=
  ⟨(c5_context_window_sizes "Binding Arbitration" "mandatory_arbitration"
      [DocGen.baFinding] DocGen.baFinding).1 (by decide) (by decide),
    (c5_context_window_sizes DocGen.medDoc "fair_terms"
      [DocGen.medFinding] DocGen.medFinding).2 (by decide) (by decide)⟩

/-- C10: each finding's matched text is the span slice of the lowercased
view of the document (hence lowercase), while its context is sliced from
the original content (original casing) and whitespace-stripped at both
ends; consequently the matched text need not occur verbatim inside its own
context, as the document "Binding Arbitration" witnesses. -/
theorem c10_matched_lower_context_original (content : String) (k : String)
    (fs : List DocGen.Finding) (f : DocGen.Finding) :
    ((k, fs) ∈ DocGen.detect_risk_patterns content → f ∈ fs →
      ∃ st e, (st, e) ∈ DocGen.finditer (DocGen.toSegs f.pattern)
          (DocGen.pyLower content.data) ∧
        f.matched = DocGen.pySlice (DocGen.pyLower content.data) st e ∧
        f.context = DocGen.pyStrip (DocGen.pySlice content.data (st - 100)
          (min content.data.length (e + 100)))) ∧
    ((k, fs) ∈ DocGen.check_compliance content → f ∈ fs →
      ∃ st e, (st, e) ∈ DocGen.finditer (DocGen.toSegs f.pattern)
          (DocGen.pyLower content.data) ∧
        f.matched = DocGen.pySlice (DocGen.pyLower content.data) st e ∧
        f.context = DocGen.pyStrip (DocGen.pySlice content.data (st - 50)
          (min content.data.length (e + 50)))) ∧
    (DocGen.detect_risk_patterns "Binding Arbitration" =
        [("mandatory_arbitration", [DocGen.baFinding])] ∧
      DocGen.containsSeq DocGen.baFinding.matched DocGen.baFinding.context = false) := by
  refine ⟨?_, ?_, by decide⟩
  · intro hk hf
    obtain ⟨⟨pats, _, hfs⟩, _⟩ := DocGen.mem_detectWith hk
    rw [hfs] at hf
    obtain ⟨_, st, e, hspan, hmat, hctx⟩ := DocGen.mem_clausesFor hf
    exact ⟨st, e, hspan, hmat, hctx⟩
  · intro hk hf
    obtain ⟨⟨pats, _, hfs⟩, _⟩ := DocGen.mem_detectWith hk
    rw [hfs] at hf
    obtain ⟨_, st, e, hspan, hmat, hctx⟩ := DocGen.mem_clausesFor hf
    exact ⟨st, e, hspan, hmat, hctx⟩

/-- C10 witness: the provenance property at the two concrete findings. -/
theorem c10_witness :
    (∃ st e, (st, e) ∈ DocGen.finditer (DocGen.toSegs DocGen.baFinding.pattern)
        (DocGen.pyLower "Binding Arbitration".data) ∧
      DocGen.baFinding.matched =
        DocGen.pySlice (DocGen.pyLower "Binding Arbitration".data) st e ∧
      DocGen.baFinding.context = DocGen.pyStrip (DocGen.pySlice "Binding Arbitration".data
        (st - 100) (min "Binding Arbitration".data.length (e + 100)))) ∧
    (∃ st e, (st, e) ∈ DocGen.finditer (DocGen.toSegs DocGen.medFinding.pattern)
        (DocGen.pyLower DocGen.medDoc.data) ∧
      DocGen.medFinding.matched =
        DocGen.pySlice (DocGen.pyLower DocGen.medDoc.data) st e ∧
      DocGen.medFinding.context = DocGen.pyStrip (DocGen.pySlice DocGen.medDoc.data
        (st - 50) (min DocGen.medDoc.data.length (e + 50)))) :=
  ⟨(c10_matched_lower_context_original "Binding Arbitration" "mandatory_arbitration"
      [DocGen.baFinding] DocGen.baFinding).1 (by decide) (by decide),
    (c10_matched_lower_context_original DocGen.medDoc "fair_terms"
      [DocGen.medFinding] DocGen.medFinding).2.1 (by decide) (by decide)⟩

namespace DocGen

theorem count_if_not_key (s t : String) (b : Bool) (h : t ≠ s) :
    ((if b = true then [t] else []) : List String).count s = 0 := by
  cases b <;> simp [List.count_singleton, h]

theorem count_else_key (s : String) (b : Bool) :
    ((if b = true then [] else [s]) : List String).count s =
      if b = true then 0 else 1 := by
  cases b <;> simp

theorem count_else_not_key (s t : String) (b : Bool) (h : t ≠ s) :
    ((if b = true then [] else [t]) : List String).count s = 0 := by
  cases b <;> simp [List.count_singleton, h]

theorem key_of_else_nil (t : String) (b : Bool)
    (h : ((if b = true then [] else [t]) : List String) = []) : b = true := by
  cases b
  · simp at h
  · rfl

/-- An empty advisory accumulator forces all four checked frameworks to be
present. -/
theorem base_empty_keys (risks compliance : List (String × List Finding))
    (hb : baseRecommendations risks compliance = []) :
    hasKey compliance "gdpr" = true ∧ hasKey compliance "ccpa" = true ∧
      hasKey compliance "fair_terms" = true ∧
      hasKey compliance "privacy_best_practices" = true := by
  unfold baseRecommendations at hb
  simp only [List.append_eq_nil] at hb
  obtain ⟨⟨⟨⟨_, hg⟩, hc⟩, hf⟩, hp⟩ := hb
  exact ⟨key_of_else_nil _ _ hg, key_of_else_nil _ _ hc,
    key_of_else_nil _ _ hf, key_of_else_nil _ _ hp⟩

theorem count_base_gdpr (risks compliance : List (String × List Finding)) :
    (baseRecommendations risks compliance).count advGdpr =
      if hasKey compliance "gdpr" = true then 0 else 1 := by
  unfold baseRecommendations
  simp only [List.count_append]
  rw [count_if_not_key _ _ _ (by decide), count_if_not_key _ _ _ (by decide),
    count_if_not_key _ _ _ (by decide), count_if_not_key _ _ _ (by decide),
    count_if_not_key _ _ _ (by decide), count_if_not_key _ _ _ (by decide),
    count_if_not_key _ _ _ (by decide), count_if_not_key _ _ _ (by decide),
    count_if_not_key _ _ _ (by decide), count_if_not_key _ _ _ (by decide),
    count_if_not_key _ _ _ (by decide), count_if_not_key _ _ _ (by decide),
    count_if_not_key _ _ _ (by decide), count_if_not_key _ _ _ (by decide),
    count_else_key, count_else_not_key _ _ _ (by decide),
    count_else_not_key _ _ _ (by decide), count_else_not_key _ _ _ (by decide)]
  cases hasKey compliance "gdpr" <;> simp

theorem count_base_ccpa (risks compliance : List (String × List Finding)) :
    (baseRecommendations risks compliance).count advCcpa =
      if hasKey compliance "ccpa" = true then 0 else 1 := by
  unfold baseRecommendations
  simp only [List.count_append]
  rw [count_if_not_key _ _ _ (by decide), count_if_not_key _ _ _ (by decide),
    count_if_not_key _ _ _ (by decide), count_if_not_key _ _ _ (by decide),
    count_if_not_key _ _ _ (by decide), count_if_not_key _ _ _ (by decide),
    count_if_not_key _ _ _ (by decide), count_if_not_key _ _ _ (by decide),
    count_if_not_key _ _ _ (by decide), count_if_not_key _ _ _ (by decide),
    count_if_not_key _ _ _ (by decide), count_if_not_key _ _ _ (by decide),
    count_if_not_key _ _ _ (by decide), count_if_not_key _ _ _ (by decide),
    count_else_not_key _ _ _ (by decide), count_else_key,
    count_else_not_key _ _ _ (by decide), count_else_not_key _ _ _ (by decide)]
  cases hasKey compliance "ccpa" <;> simp

theorem count_base_fair (risks compliance : List (String × List Finding)) :
    (baseRecommendations risks compliance).count advFairTerms =
      if hasKey compliance "fair_terms" = true then 0 else 1 := by
  unfold baseRecommendations
  simp only [List.count_append]
  rw [count_if_not_key _ _ _ (by decide), count_if_not_key _ _ _ (by decide),
    count_if_not_key _ _ _ (by decide), count_if_not_key _ _ _ (by decide),
    count_if_not_key _ _ _ (by decide), count_if_not_key _ _ _ (by decide),
    count_if_not_key _ _ _ (by decide), count_if_not_key _ _ _ (by decide),
    count_if_not_key _ _ _ (by decide), count_if_not_key _ _ _ (by decide),
    count_if_not_key _ _ _ (by decide), count_if_not_key _ _ _ (by decide),
    count_if_not_key _ _ _ (by decide), count_if_not_key _ _ _ (by decide),
    count_else_not_key _ _ _ (by decide), count_else_not_key _ _ _ (by decide),
    count_else_key, count_else_not_key _ _ _ (by decide)]
  cases hasKey compliance "fair_terms" <;> simp

theorem count_base_privacy (risks compliance : List (String × List Finding)) :
    (baseRecommendations risks compliance).count advPrivacyBest =
      if hasKey compliance "privacy_best_practices" = true then 0 else 1 := by
  unfold baseRecommendations
  simp only [List.count_append]
  rw [count_if_not_key _ _ _ (by decide), count_if_not_key _ _ _ (by decide),
    count_if_not_key _ _ _ (by decide), count_if_not_key _ _ _ (by decide),
    count_if_not_key _ _ _ (by decide), count_if_not_key _ _ _ (by decide),
    count_if_not_key _ _ _ (by decide), count_if_not_key _ _ _ (by decide),
    count_if_not_key _ _ _ (by decide), count_if_not_key _ _ _ (by decide),
    count_if_not_key _ _ _ (by decide), count_if_not_key _ _ _ (by decide),
    count_if_not_key _ _ _ (by decide), count_if_not_key _ _ _ (by decide),
    count_else_not_key _ _ _ (by decide), count_else_not_key _ _ _ (by decide),
    count_else_not_key _ _ _ (by decide), count_else_key]
  cases hasKey compliance "privacy_best_practices" <;> simp

end DocGen

/-- C4 counterexample: with every framework except coppa present, coppa is
absent from the compliance mapping, yet the output is the single
affirmative fallback — the absent framework coppa contributed no fixed
add-X advisory. -/
theorem c4_counterexample :
    DocGen.generate_recommendations []
        [("gdpr", []), ("ccpa", []), ("fair_terms", []), ("privacy_best_practices", [])] =
      [DocGen.advFallback] ∧
    DocGen.hasKey
        [("gdpr", []), ("ccpa", []), ("fair_terms", []), ("privacy_best_practices", [])]
        "coppa" = false := by
  decide

/-- C4 (amended): for every input, each of the four checked compliance
frameworks (gdpr, ccpa, fair_terms, privacy_best_practices) that is absent
from the compliance mapping contributes exactly one fixed add-X advisory to
the output, and each present one contributes none; coppa is not checked and
its absence contributes nothing. -/
theorem c4_absent_framework_advisories
    (risks compliance : List (String × List DocGen.Finding)) :
    ((DocGen.generate_recommendations risks compliance).count DocGen.advGdpr =
      if DocGen.hasKey compliance "gdpr" = true then 0 else 1) ∧
    ((DocGen.generate_recommendations risks compliance).count DocGen.advCcpa =
      if DocGen.hasKey compliance "ccpa" = true then 0 else 1) ∧
    ((DocGen.generate_recommendations risks compliance).count DocGen.advFairTerms =
      if DocGen.hasKey compliance "fair_terms" = true then 0 else 1) ∧
    ((DocGen.generate_recommendations risks compliance).count DocGen.advPrivacyBest =
      if DocGen.hasKey compliance "privacy_best_practices" = true then 0 else 1) := by
  by_cases hb : (DocGen.baseRecommendations risks compliance).isEmpty
  · have hkeys := DocGen.base_empty_keys risks compliance (List.isEmpty_eq_true.mp hb)
    simp only [DocGen.generate_recommendations]
    rw [if_pos hb]
    refine ⟨?_, ?_, ?_, ?_⟩
    · rw [hkeys.1]; decide
    · rw [hkeys.2.1]; decide
    · rw [hkeys.2.2.1]; decide
    · rw [hkeys.2.2.2]; decide
  · simp only [DocGen.generate_recommendations]
    rw [if_neg hb]
    exact ⟨DocGen.count_base_gdpr risks compliance, DocGen.count_base_ccpa risks compliance,
      DocGen.count_base_fair risks compliance, DocGen.count_base_privacy risks compliance⟩

namespace DocGen


/-- An element that fails the predicate survives `dropWhile`. -/
theorem mem_dropWhile_of_not (p : Char → Bool) (l : List Char) (c : Char)
    (hc : c ∈ l) (hp : p c = false) : c ∈ l.dropWhile p := by
  induction l with
  | nil => cases hc
  | cons a t ih =>
    by_cases ha : p a
    · rcases List.mem_cons.mp hc with rfl | ht
      · rw [hp] at ha; cases ha
      · simpa [List.dropWhile_cons, ha] using ih ht
    · simpa [List.dropWhile_cons, ha] using hc

/-- A non-whitespace character of a string survives stripping. -/
theorem mem_pyStrip_of_not_ws (s : List Char) (c : Char) (hc : c ∈ s)
    (hw : c.isWhitespace = false) : c ∈ pyStrip s := by
  unfold pyStrip
  apply List.mem_reverse.mpr
  apply mem_dropWhile_of_not _ _ _ _ hw
  apply List.mem_reverse.mpr
  exact mem_dropWhile_of_not _ _ _ hc hw

/-- A string that strips to nothing is all whitespace. -/
theorem ws_of_pyStrip_nil (s : List Char) (h : pyStrip s = []) :
    ∀ c ∈ s, c.isWhitespace = true := by
  unfold pyStrip at h
  rw [List.reverse_eq_nil_iff, List.dropWhile_eq_nil_iff] at h
  intro c hc
  by_cases hw : c.isWhitespace = true
  · exact hw
  · have hw' : c.isWhitespace = false := by simpa using hw
    exact h c (List.mem_reverse.mpr (mem_dropWhile_of_not _ _ _ hc hw'))

/-- On a header-free line list, the loop of `extract_sections` just extends
the accumulator with the stripped non-blank lines and flushes it once. -/
theorem extractAux_no_headers :
    ∀ lines : List (List Char), (∀ l ∈ lines, isHeader (pyStrip l) = false) →
      ∀ title acc : List Char,
        extractAux lines title acc =
          if (pyStrip (acc ++ strippedBody lines)).isEmpty then []
          else [⟨title, acc ++ strippedBody lines⟩] := by
  intro lines
  induction lines with
  | nil =>
    intro _ title acc
    simp [extractAux, strippedBody]
  | cons line rest ih =>
    intro hnh title acc
    have hrest : ∀ l ∈ rest, isHeader (pyStrip l) = false :=
      fun l hl => hnh l (List.mem_cons_of_mem _ hl)
    have hline : isHeader (pyStrip line) = false := hnh line (List.mem_cons_self _ _)
    by_cases hE : (pyStrip line).isEmpty
    · have hbody : strippedBody (line :: rest) = strippedBody rest := by
        simp [strippedBody, hE]
      have hstep : extractAux (line :: rest) title acc = extractAux rest title acc := by
        simp [extractAux, hE]
      rw [hstep, ih hrest, hbody]
    · have hbody : strippedBody (line :: rest) =
          (pyStrip line ++ ['\n']) ++ strippedBody rest := by
        simp [strippedBody, hE]
      have hstep : extractAux (line :: rest) title acc =
          extractAux rest title (acc ++ pyStrip line ++ ['\n']) := by
        simp [extractAux, hE, hline]
      rw [hstep, ih hrest, hbody]
      simp [List.append_assoc]

end DocGen

/-- C8: on a document none of whose stripped lines matches any of the three
header rules and which has at least one line with a non-whitespace
character, `extract_sections` returns exactly one section titled
Introduction whose body is the stripped non-blank lines in original order,
each newline-terminated. -/
theorem c8_no_headers_single_introduction (content : String)
    (hnh : ∀ l ∈ DocGen.splitOnNl content.data, DocGen.isHeader (DocGen.pyStrip l) = false)
    (hnb : ∃ l ∈ DocGen.splitOnNl content.data, ∃ c ∈ l, c.isWhitespace = false) :
    DocGen.extract_sections content =
      [⟨"Introduction".data, DocGen.strippedBody (DocGen.splitOnNl content.data)⟩] := by
  unfold DocGen.extract_sections
  rw [DocGen.extractAux_no_headers _ hnh, List.nil_append]
  rw [if_neg ?hne]
  case hne =>
    obtain ⟨line, hline, c, hc, hcw⟩ := hnb
    have hmem : c ∈ DocGen.pyStrip line := DocGen.mem_pyStrip_of_not_ws _ _ hc hcw
    have hbody : c ∈ DocGen.strippedBody (DocGen.splitOnNl content.data) := by
      unfold DocGen.strippedBody
      apply List.mem_flatten.mpr
      refine ⟨DocGen.pyStrip line ++ ['\n'], ?_, List.mem_append_left _ hmem⟩
      apply List.mem_map_of_mem
      apply List.mem_filter.mpr
      refine ⟨List.mem_map_of_mem _ hline, ?_⟩
      simp [List.isEmpty_eq_true]
      exact List.ne_nil_of_mem hmem
    intro habs
    have hnilstrip := List.isEmpty_eq_true.mp habs
    have := DocGen.ws_of_pyStrip_nil _ hnilstrip c hbody
    rw [hcw] at this
    cases this

/-- C8 witness: a two-line header-free document segments into the single
Introduction section. -/
theorem c8_witness :
    DocGen.extract_sections "hello world\nfoo bar" =
      [⟨"Introduction".data,
        DocGen.strippedBody (DocGen.splitOnNl "hello world\nfoo bar".data)⟩] :=
  c8_no_headers_single_introduction "hello world\nfoo bar" (by decide) (by decide)
